import Mathlib

/-!
Verification development for the MoltStreet prediction-market backend.

The definitions below are a shallow embedding of the Python source:

* `server/models/*.py`           — data model (`Agent`, `Order`, `Trade`, `Position`, …)
* `server/services/matching.py`  — `match_order`, `update_position`, `settle_trade`,
                                   `lock_balance_for_order`, `unlock_balance_for_cancelled_order`,
                                   `record_trading_fee`, `update_platform_stats`,
                                   `update_market_price`
* `server/services/settlement.py`— `resolve_market`
* `server/routers/orders.py`     — `place_order`, `cancel_order` (AUTO/MANUAL paths)
* `server/config.py`             — fee-rate settings

Python `Decimal` values are modelled as exact rationals (`ℚ`); share counts are
integers; uuids and timestamps are modelled as natural numbers.  Fields that carry
no transition semantics (free-text descriptions, timestamps inside records,
uuid defaults) are elided.  Database queries become list filters, SQL
`ORDER BY` becomes `List.insertionSort`, and the ORM session becomes explicit
state threading.  Exceptions are modelled with `Except`.
-/

attribute [local semireducible] Rat.mul Rat.add Rat.inv Rat.sub

/-- Outcome side being traded (models `Side` in `models/order.py`). -/
inductive Side
  | YES
  | NO
deriving DecidableEq, Repr

/-- Whether an order is buying or selling shares (models `OrderType`). -/
inductive OrderType
  | BUY
  | SELL
deriving DecidableEq, Repr

/-- Order lifecycle status (models `OrderStatus`: OPEN / PARTIAL / FILLED / CANCELLED;
the PARTIAL member is rendered here as `PARTIALLY_FILLED`). -/
inductive OrderStatus
  | OPEN
  | PARTIALLY_FILLED
  | FILLED
  | CANCELLED
deriving DecidableEq, Repr

/-- Market lifecycle status (models `MarketStatus` in `models/market.py`). -/
inductive MarketStatus
  | OPEN
  | CLOSED
  | RESOLVED
deriving DecidableEq, Repr

/-- Resolution outcome (models `Outcome` in `models/market.py`). -/
inductive Outcome
  | YES
  | NO
deriving DecidableEq, Repr

/-- Agent role (models `AgentRole` in `models/agent.py`). -/
inductive AgentRole
  | TRADER
  | MODERATOR
deriving DecidableEq, Repr

/-- Trading mode (models `TradingMode` in `models/agent.py`). -/
inductive TradingMode
  | MANUAL
  | AUTO
deriving DecidableEq, Repr

/-- Platform fee type (models `FeeType` in `models/platform.py`). -/
inductive FeeType
  | TRADING
  | MARKET_CREATION
  | SETTLEMENT
deriving DecidableEq, Repr

/-- Agent row (models `Agent` in `models/agent.py`; api-key and rate-limit
columns are not part of any trading transition and are elided). -/
structure Agent where
  id : ℕ
  role : AgentRole
  trading_mode : TradingMode
  balance : ℚ
  locked_balance : ℚ
  reputation : ℚ
deriving DecidableEq, Repr

/-- `Agent.available_balance` property. -/
def Agent.available_balance (a : Agent) : ℚ :=
  a.balance - a.locked_balance

/-- `Agent.can_trade` property. -/
def Agent.can_trade (a : Agent) : Bool :=
  a.role == AgentRole.TRADER

/-- Order row (models `Order` in `models/order.py`). -/
structure Order where
  id : ℕ
  agent_id : ℕ
  market_id : ℕ
  side : Side
  order_type : OrderType
  price : ℚ
  size : ℕ
  filled : ℕ
  status : OrderStatus
  created_at : ℕ
deriving DecidableEq, Repr

/-- Trade row (models `Trade` in `models/trade.py`). -/
structure Trade where
  market_id : ℕ
  buy_order_id : ℕ
  sell_order_id : ℕ
  buyer_id : ℕ
  seller_id : ℕ
  side : Side
  price : ℚ
  size : ℕ
  buyer_fee : ℚ
  seller_fee : ℚ
  total_fee : ℚ
deriving DecidableEq, Repr

/-- Position row (models `Position` in `models/position.py`). -/
structure Position where
  agent_id : ℕ
  market_id : ℕ
  yes_shares : ℤ
  no_shares : ℤ
  avg_yes_price : Option ℚ
  avg_no_price : Option ℚ
deriving DecidableEq, Repr

/-- Market row (models `Market` in `models/market.py`; question text, category
and deadline carry no semantics used here). -/
structure Market where
  id : ℕ
  creator_id : ℕ
  status : MarketStatus
  outcome : Option Outcome
  yes_price : ℚ
  no_price : ℚ
  volume : ℚ
  resolved_by : Option ℕ
deriving DecidableEq, Repr

/-- Platform fee record (models `PlatformFee`; description text elided). -/
structure PlatformFee where
  fee_type : FeeType
  amount : ℚ
  agent_id : Option ℕ
  market_id : Option ℕ
deriving DecidableEq, Repr

/-- Aggregate platform statistics (models `PlatformStats`). -/
structure PlatformStats where
  total_trading_fees : ℚ
  total_market_creation_fees : ℚ
  total_settlement_fees : ℚ
  total_volume : ℚ
  total_trades : ℕ
  total_markets_created : ℕ
  total_markets_resolved : ℕ
deriving DecidableEq, Repr

/-- Moderator reward record (models `ModeratorReward`). -/
structure ModeratorReward where
  moderator_id : ℕ
  market_id : ℕ
  platform_share : ℚ
  winner_fee : ℚ
  total_reward : ℚ
  total_winner_profits : ℚ
deriving DecidableEq, Repr

/-- `settings.TRADING_FEE_RATE` (config.py): 1% trading fee. -/
def TRADING_FEE_RATE : ℚ := 1 / 100

/-- `settings.SETTLEMENT_FEE_RATE` (config.py): 2% of winnings. -/
def SETTLEMENT_FEE_RATE : ℚ := 2 / 100

/-- `settings.MODERATOR_PLATFORM_SHARE` (config.py): 30% of platform settlement fee. -/
def MODERATOR_PLATFORM_SHARE : ℚ := 30 / 100

/-- `settings.MODERATOR_WINNER_FEE` (config.py): 0.5% additional from winner profits. -/
def MODERATOR_WINNER_FEE : ℚ := 5 / 1000

/-- `lock_balance_for_order` (matching.py): lock `price * size`; `none` models the
`False` return for insufficient balance (caller turns it into an HTTP 400). -/
def lock_balance_for_order (agent : Agent) (price : ℚ) (size : ℕ) : Option Agent :=
  let cost := price * size
  if agent.balance - agent.locked_balance < cost then
    none
  else
    some { agent with locked_balance := agent.locked_balance + cost }

/-- `unlock_balance_for_cancelled_order` (matching.py): unlock `price * unfilled`,
returning the updated agent and the refund amount. -/
def unlock_balance_for_cancelled_order (agent : Agent) (price : ℚ) (unfilled : ℕ) :
    Agent × ℚ :=
  let refund := price * unfilled
  ({ agent with locked_balance := agent.locked_balance - refund }, refund)

/-- `settle_trade` (matching.py): deduct the trade cost from each party's locked
balance and the cost plus fee from each party's balance. -/
def settle_trade (buyer seller : Agent) (price : ℚ) (size : ℕ)
    (buyer_fee seller_fee : ℚ) : Agent × Agent :=
  let buyer_cost := price * size
  let seller_cost := (1 - price) * size
  ({ buyer with
      locked_balance := buyer.locked_balance - buyer_cost
      balance := buyer.balance - (buyer_cost + buyer_fee) },
   { seller with
      locked_balance := seller.locked_balance - seller_cost
      balance := seller.balance - (seller_cost + seller_fee) })

/-- Truthiness of a Python optional `Decimal`: `None` and `0` are falsy.  The
source guards average-price updates with `position.avg_yes_price` used as a
boolean, which is what this mirrors. -/
def decimalTruthy : Option ℚ → Bool
  | none => false
  | some a => !(a == 0)

/-- `update_position` (matching.py): BUY with positive shares updates the
weighted-average price and increments the count; anything else only adds the
(possibly negative) share delta and leaves the average untouched. -/
def update_position (p : Position) (side : Side) (shares : ℤ) (price : ℚ)
    (is_buy : Bool) : Position :=
  match side with
  | Side.YES =>
    if is_buy && decide (0 < shares) then
      if decide (0 < p.yes_shares) && decimalTruthy p.avg_yes_price then
        let a := p.avg_yes_price.getD 0
        let total_cost := a * p.yes_shares + price * shares
        { p with
            avg_yes_price := some (total_cost / (p.yes_shares + shares))
            yes_shares := p.yes_shares + shares }
      else
        { p with avg_yes_price := some price, yes_shares := p.yes_shares + shares }
    else
      { p with yes_shares := p.yes_shares + shares }
  | Side.NO =>
    if is_buy && decide (0 < shares) then
      if decide (0 < p.no_shares) && decimalTruthy p.avg_no_price then
        let a := p.avg_no_price.getD 0
        let total_cost := a * p.no_shares + price * shares
        { p with
            avg_no_price := some (total_cost / (p.no_shares + shares))
            no_shares := p.no_shares + shares }
      else
        { p with avg_no_price := some price, no_shares := p.no_shares + shares }
    else
      { p with no_shares := p.no_shares + shares }

/-- `update_platform_stats` (matching.py), with the keyword arguments passed
positionally in the order they are declared. -/
def update_platform_stats (stats : PlatformStats) (trading_fee : ℚ)
    (market_creation_fee : ℚ) (settlement_fee : ℚ) (volume : ℚ)
    (trade_count : ℕ) (markets_created : ℕ) (markets_resolved : ℕ) :
    PlatformStats :=
  { stats with
      total_trading_fees := stats.total_trading_fees + trading_fee
      total_market_creation_fees := stats.total_market_creation_fees + market_creation_fee
      total_settlement_fees := stats.total_settlement_fees + settlement_fee
      total_volume := stats.total_volume + volume
      total_trades := stats.total_trades + trade_count
      total_markets_created := stats.total_markets_created + markets_created
      total_markets_resolved := stats.total_markets_resolved + markets_resolved }

/-- `record_trading_fee` (matching.py): append a fee record per positive fee
(buyer first, then seller), mirroring the two `session.add` calls. -/
def record_trading_fee (fees : List PlatformFee) (buyer_id seller_id : ℕ)
    (buyer_fee seller_fee : ℚ) (market_id : ℕ) : List PlatformFee :=
  let withBuyer :=
    if 0 < buyer_fee then
      fees ++ [{ fee_type := FeeType.TRADING, amount := buyer_fee,
                 agent_id := some buyer_id, market_id := some market_id }]
    else fees
  if 0 < seller_fee then
    withBuyer ++ [{ fee_type := FeeType.TRADING, amount := seller_fee,
                    agent_id := some seller_id, market_id := some market_id }]
  else withBuyer

/-- Opposite order type, as computed at the top of `match_order`. -/
def opposite_type : OrderType → OrderType
  | OrderType.BUY => OrderType.SELL
  | OrderType.SELL => OrderType.BUY

/-- Opposite side, as computed in the complementary branch of `match_order`. -/
def opposite_side : Side → Side
  | Side.YES => Side.NO
  | Side.NO => Side.YES

/-- Scan order of the BUY same-side query: ascending resting price, then
ascending creation time (`ORDER BY price ASC, created_at ASC`). -/
def buyPriceTimeLe (a b : Order) : Prop :=
  a.price < b.price ∨ (a.price = b.price ∧ a.created_at ≤ b.created_at)

/-- Scan order of the SELL same-side query and of the complementary query:
descending resting price, then ascending creation time
(`ORDER BY price DESC, created_at ASC`). -/
def sellPriceTimeLe (a b : Order) : Prop :=
  b.price < a.price ∨ (a.price = b.price ∧ a.created_at ≤ b.created_at)

instance : DecidableRel buyPriceTimeLe := fun a b => by
  unfold buyPriceTimeLe; infer_instance

instance : DecidableRel sellPriceTimeLe := fun a b => by
  unfold sellPriceTimeLe; infer_instance

instance : IsTotal Order buyPriceTimeLe := ⟨by
  intro a b
  rcases lt_trichotomy a.price b.price with h | h | h
  · exact Or.inl (Or.inl h)
  · rcases Nat.le_total a.created_at b.created_at with ht | ht
    · exact Or.inl (Or.inr ⟨h, ht⟩)
    · exact Or.inr (Or.inr ⟨h.symm, ht⟩)
  · exact Or.inr (Or.inl h)⟩

instance : IsTrans Order buyPriceTimeLe := ⟨by
  intro a b c hab hbc
  rcases hab with h1 | ⟨h1, h1t⟩ <;> rcases hbc with h2 | ⟨h2, h2t⟩
  · exact Or.inl (h1.trans h2)
  · exact Or.inl (h2 ▸ h1)
  · exact Or.inl (h1 ▸ h2)
  · exact Or.inr ⟨h1.trans h2, h1t.trans h2t⟩⟩

instance : IsTotal Order sellPriceTimeLe := ⟨by
  intro a b
  rcases lt_trichotomy a.price b.price with h | h | h
  · exact Or.inr (Or.inl h)
  · rcases Nat.le_total a.created_at b.created_at with ht | ht
    · exact Or.inl (Or.inr ⟨h, ht⟩)
    · exact Or.inr (Or.inr ⟨h.symm, ht⟩)
  · exact Or.inl (Or.inl h)⟩

instance : IsTrans Order sellPriceTimeLe := ⟨by
  intro a b c hab hbc
  rcases hab with h1 | ⟨h1, h1t⟩ <;> rcases hbc with h2 | ⟨h2, h2t⟩
  · exact Or.inl (h2.trans h1)
  · exact Or.inl (h2 ▸ h1)
  · exact Or.inl (h1 ▸ h2)
  · exact Or.inr ⟨h1.trans h2, h1t.trans h2t⟩⟩

/-- Row filter of the same-side query in `match_order` (strategy 1): same
market, same side, opposite order type, open or partially filled, price
crossing in the direction fixed by the incoming order's type, and a
different agent. -/
def sameSideEligible (order o : Order) : Bool :=
  o.market_id == order.market_id &&
  o.side == order.side &&
  o.order_type == opposite_type order.order_type &&
  (o.status == OrderStatus.OPEN || o.status == OrderStatus.PARTIALLY_FILLED) &&
  (if order.order_type == OrderType.BUY then
     decide (o.price ≤ order.price)
   else
     decide (order.price ≤ o.price)) &&
  o.agent_id != order.agent_id

/-- Result list of the same-side query, sorted the way the SQL does. -/
def sameSideCandidates (order : Order) (book : List Order) : List Order :=
  if order.order_type == OrderType.BUY then
    List.insertionSort buyPriceTimeLe (book.filter (fun o => sameSideEligible order o))
  else
    List.insertionSort sellPriceTimeLe (book.filter (fun o => sameSideEligible order o))

/-- Row filter of the complementary query in `match_order` (strategy 2): same
market, opposite side, same order type, open or partially filled, resting
price at least `1.00 - order.price`, and a different agent. -/
def complEligible (order o : Order) : Bool :=
  o.market_id == order.market_id &&
  o.side == opposite_side order.side &&
  o.order_type == order.order_type &&
  (o.status == OrderStatus.OPEN || o.status == OrderStatus.PARTIALLY_FILLED) &&
  decide (1 - order.price ≤ o.price) &&
  o.agent_id != order.agent_id

/-- Result list of the complementary query; it is only issued when the incoming
order is not yet fully filled. -/
def complCandidates (order : Order) (book : List Order) : List Order :=
  if order.filled < order.size then
    List.insertionSort sellPriceTimeLe (book.filter (fun o => complEligible order o))
  else []

/-- The full candidate sequence consumed by the matching loop: all same-side
matches first, then the complementary ones. -/
def matchCandidates (order : Order) (book : List Order) : List Order :=
  sameSideCandidates order book ++ complCandidates order book

/-- Helper: `session.execute(select(Agent).where(Agent.id == i))...scalar_one_or_none()`. -/
def findAgent (l : List Agent) (i : ℕ) : Option Agent :=
  l.find? (fun a => a.id == i)

/-- Helper: write back a mutated agent row. -/
def updateAgentById (l : List Agent) (i : ℕ) (f : Agent → Agent) : List Agent :=
  l.map (fun a => if a.id == i then f a else a)

/-- Helper: look up the position row for an agent in a market. -/
def findPosition (l : List Position) (aid mid : ℕ) : Option Position :=
  l.find? (fun p => p.agent_id == aid && p.market_id == mid)

/-- The load-or-create-then-mutate pattern of `update_position`: mutate the
existing row in place, or append a freshly created row (all-zero shares, no
average prices) after applying the update to it. -/
def applyPositionUpdate (ps : List Position) (aid mid : ℕ) (side : Side)
    (shares : ℤ) (price : ℚ) (is_buy : Bool) : List Position :=
  match findPosition ps aid mid with
  | some _ =>
    ps.map (fun q =>
      if q.agent_id == aid && q.market_id == mid then
        update_position q side shares price is_buy
      else q)
  | none =>
    ps ++ [update_position
      { agent_id := aid, market_id := mid, yes_shares := 0, no_shares := 0,
        avg_yes_price := none, avg_no_price := none } side shares price is_buy]

/-- `settle_trade` lifted to the agents table: fetch both rows and write the
settled values back.  `scalar_one` raises when a row is missing; matched
orders always reference existing agents, so the missing case never fires in
the states this development evaluates. -/
def settleAgents (ags : List Agent) (buyer_id seller_id : ℕ) (price : ℚ)
    (size : ℕ) (buyer_fee seller_fee : ℚ) : List Agent :=
  match findAgent ags buyer_id, findAgent ags seller_id with
  | some b, some s =>
    let bs := settle_trade b s price size buyer_fee seller_fee
    updateAgentById (updateAgentById ags buyer_id (fun _ => bs.1)) seller_id (fun _ => bs.2)
  | _, _ => ags

/-- Buyer/seller identification for one match, as computed in the body of the
matching loop. -/
structure MatchInfo where
  buyer_id : ℕ
  seller_id : ℕ
  buy_order_id : ℕ
  sell_order_id : ℕ
  trade_price : ℚ
deriving DecidableEq, Repr

/-- State threaded through the `for match in matching_orders` loop of
`match_order`: the incoming order, the mutated tables, the resting orders
already consumed (`fills`) and the trades created so far. -/
structure LoopState where
  order : Order
  agents : List Agent
  positions : List Position
  platform_fees : List PlatformFee
  stats : PlatformStats
  fills : List Order
  trades : List Trade

/-- Buyer/seller/price derivation of the matching loop (matching.py lines
101-148): in a same-side match the BUY-typed order is the buyer and the
SELL-typed order's price executes; in a complementary match the YES-side
order is recorded as the buyer and its price executes. -/
def matchInfo (order m : Order) : MatchInfo :=
  if order.side == m.side then
    if order.order_type == OrderType.BUY then
      { buyer_id := order.agent_id, seller_id := m.agent_id,
        buy_order_id := order.id, sell_order_id := m.id,
        trade_price := m.price }
    else
      { buyer_id := m.agent_id, seller_id := order.agent_id,
        buy_order_id := m.id, sell_order_id := order.id,
        trade_price := order.price }
  else
    if order.side == Side.YES then
      { buyer_id := order.agent_id, seller_id := m.agent_id,
        buy_order_id := order.id, sell_order_id := m.id,
        trade_price := order.price }
    else
      { buyer_id := m.agent_id, seller_id := order.agent_id,
        buy_order_id := m.id, sell_order_id := order.id,
        trade_price := m.price }

/-- One iteration body of the matching loop (matching.py lines 90-212), to be
run when the computed trade size is positive: derive buyer/seller and the
trade price, update both positions, create the trade, update fills and
statuses, settle balances and record fees. -/
def matchStep (s : LoopState) (m : Order) : LoopState :=
  let order_remaining := s.order.size - s.order.filled
  let match_remaining := m.size - m.filled
  let trade_size := min order_remaining match_remaining
  let is_same_side := s.order.side == m.side
  let info := matchInfo s.order m
  let trade_side := if is_same_side then s.order.side else Side.YES
  let market_id := s.order.market_id
  let positions' :=
    if is_same_side then
      applyPositionUpdate
        (applyPositionUpdate s.positions info.buyer_id market_id trade_side
          (trade_size : ℤ) info.trade_price true)
        info.seller_id market_id trade_side (-(trade_size : ℤ))
        info.trade_price false
    else
      applyPositionUpdate
        (applyPositionUpdate s.positions info.buyer_id market_id Side.YES
          (trade_size : ℤ) info.trade_price true)
        info.seller_id market_id Side.NO (trade_size : ℤ)
        (1 - info.trade_price) true
  let trade_value := info.trade_price * trade_size
  let buyer_fee := trade_value * TRADING_FEE_RATE
  let seller_fee := (1 - info.trade_price) * trade_size * TRADING_FEE_RATE
  let total_fee := buyer_fee + seller_fee
  let trade : Trade :=
    { market_id := market_id, buy_order_id := info.buy_order_id,
      sell_order_id := info.sell_order_id, buyer_id := info.buyer_id,
      seller_id := info.seller_id, side := trade_side,
      price := info.trade_price, size := trade_size,
      buyer_fee := buyer_fee, seller_fee := seller_fee, total_fee := total_fee }
  let newOrderFilled := s.order.filled + trade_size
  let order' :=
    { s.order with
        filled := newOrderFilled
        status := if s.order.size ≤ newOrderFilled then OrderStatus.FILLED
                  else OrderStatus.PARTIALLY_FILLED }
  let newMatchFilled := m.filled + trade_size
  let m' :=
    { m with
        filled := newMatchFilled
        status := if m.size ≤ newMatchFilled then OrderStatus.FILLED
                  else OrderStatus.PARTIALLY_FILLED }
  let agents' := settleAgents s.agents info.buyer_id info.seller_id
    info.trade_price trade_size buyer_fee seller_fee
  let fees' := record_trading_fee s.platform_fees info.buyer_id
    info.seller_id buyer_fee seller_fee market_id
  let stats' := update_platform_stats s.stats (buyer_fee + seller_fee) 0 0 0 1 0 0
  { order := order', agents := agents', positions := positions',
    platform_fees := fees', stats := stats',
    fills := s.fills ++ [m'], trades := s.trades ++ [trade] }

/-- The matching loop of `match_order` (matching.py lines 86-212): for each
candidate, stop when the incoming order is filled, skip empty matches,
otherwise run `matchStep`. -/
def matchLoop : LoopState → List Order → LoopState
  | s, [] => s
  | s, m :: ms =>
    if s.order.size ≤ s.order.filled then s
    else if min (s.order.size - s.order.filled) (m.size - m.filled) = 0 then
      matchLoop s ms
    else
      matchLoop (matchStep s m) ms

/-- `update_market_price` (matching.py): set the market's prices from the last
trade price. -/
def update_market_price (markets : List Market) (market_id : ℕ) (last_price : ℚ) :
    List Market :=
  markets.map (fun mk =>
    if mk.id == market_id then
      { mk with yes_price := last_price, no_price := 1 - last_price }
    else mk)

/-- Whole-system state: the database tables (plus a pending-action counter for
the MANUAL trading mode). -/
structure SysState where
  agents : List Agent
  markets : List Market
  orders : List Order
  positions : List Position
  platform_fees : List PlatformFee
  moderator_rewards : List ModeratorReward
  stats : PlatformStats
  pending_actions : ℕ
deriving DecidableEq, Repr

/-- `match_order` (matching.py): run the two queries, consume the candidates,
write the consumed resting orders back into the book, and update the market
price from the last trade if any trade occurred.  Returns the new state, the
mutated incoming order and the list of trades. -/
def match_order (st : SysState) (order : Order) : SysState × Order × List Trade :=
  let s0 : LoopState :=
    { order := order, agents := st.agents, positions := st.positions,
      platform_fees := st.platform_fees, stats := st.stats, fills := [], trades := [] }
  let s := matchLoop s0 (matchCandidates order st.orders)
  let orders' := st.orders.map (fun o =>
    match s.fills.find? (fun f => f.id == o.id) with
    | some f => f
    | none => o)
  let markets' :=
    match s.trades.getLast? with
    | some t => update_market_price st.markets order.market_id t.price
    | none => st.markets
  ({ st with
      agents := s.agents, positions := s.positions,
      platform_fees := s.platform_fees, stats := s.stats,
      orders := orders', markets := markets' },
   s.order, s.trades)

/-- Domain errors raised by the routers and services (HTTPException details and
ValueError messages, as an enumeration). -/
inductive ApiError
  | agentNotFound
  | moderatorCannotTrade
  | marketNotFound
  | marketClosed
  | insufficientBalance
  | orderNotFound
  | notYourOrder
  | orderNotCancellable
  | marketAlreadyResolved
  | missingAgentRow
deriving DecidableEq, Repr

/-- Request body `OrderCreate` (schemas/order.py).  The schema accepts an
`order_type` field, defaulting to BUY. -/
structure OrderCreate where
  agent_id : ℕ
  market_id : ℕ
  side : Side
  order_type : OrderType
  price : ℚ
  size : ℕ
deriving DecidableEq, Repr

/-- Result of the order-placement endpoint: a pending approval (MANUAL mode)
or an executed placement with the created order and its trades. -/
inductive PlaceOutcome
  | pending
  | placed (order : Order) (trades : List Trade)
deriving DecidableEq, Repr

/-- Result of the cancellation endpoint: a pending approval (MANUAL mode) or a
cancellation with the refunded amount. -/
inductive CancelOutcome
  | pending
  | cancelled (refund : ℚ)
deriving DecidableEq, Repr

/-- Helper: look up a market row by id. -/
def findMarket (l : List Market) (i : ℕ) : Option Market :=
  l.find? (fun mk => mk.id == i)

/-- Helper: look up an order row by id. -/
def findOrder (l : List Order) (i : ℕ) : Option Order :=
  l.find? (fun o => o.id == i)

/-- `place_order` (routers/orders.py): validate agent, trading capability,
market and market status; MANUAL mode only validates the balance and queues a
pending action; AUTO mode locks the balance, creates the order and matches it.
The router builds the `Order` without passing the request's `order_type`
through, so the created row carries the model default `OrderType.BUY`.
`new_order_id` and `now` stand for the generated uuid and `datetime.utcnow()`. -/
def place_order (st : SysState) (data : OrderCreate) (new_order_id now : ℕ) :
    Except ApiError (SysState × PlaceOutcome) :=
  match findAgent st.agents data.agent_id with
  | none => Except.error ApiError.agentNotFound
  | some agent =>
    if !agent.can_trade then Except.error ApiError.moderatorCannotTrade
    else
      match findMarket st.markets data.market_id with
      | none => Except.error ApiError.marketNotFound
      | some market =>
        if market.status ≠ MarketStatus.OPEN then Except.error ApiError.marketClosed
        else if agent.trading_mode == TradingMode.MANUAL then
          let cost := data.price * (data.size : ℚ)
          if agent.available_balance < cost then Except.error ApiError.insufficientBalance
          else Except.ok ({ st with pending_actions := st.pending_actions + 1 },
                          PlaceOutcome.pending)
        else
          match lock_balance_for_order agent data.price data.size with
          | none => Except.error ApiError.insufficientBalance
          | some agent' =>
            let st1 := { st with
              agents := updateAgentById st.agents data.agent_id (fun _ => agent') }
            let order : Order :=
              { id := new_order_id, agent_id := data.agent_id,
                market_id := data.market_id, side := data.side,
                order_type := OrderType.BUY, price := data.price,
                size := data.size, filled := 0, status := OrderStatus.OPEN,
                created_at := now }
            let res := match_order st1 order
            let st2 := res.1
            let order' := res.2.1
            let trades := res.2.2
            let addedVolume := (trades.map (fun t => t.price * (t.size : ℚ))).sum
            let st3 := { st2 with
              markets := st2.markets.map (fun mk =>
                if mk.id == data.market_id then
                  { mk with volume := mk.volume + addedVolume }
                else mk),
              orders := st2.orders ++ [order'] }
            Except.ok (st3, PlaceOutcome.placed order' trades)

/-- `cancel_order` (routers/orders.py): look up the order, verify ownership and
a cancellable status, then (AUTO mode) refund the unfilled remainder and mark
the order cancelled; MANUAL mode queues a pending action instead. -/
def cancel_order (st : SysState) (order_id agent_id : ℕ) :
    Except ApiError (SysState × CancelOutcome) :=
  match findOrder st.orders order_id with
  | none => Except.error ApiError.orderNotFound
  | some order =>
    if order.agent_id ≠ agent_id then Except.error ApiError.notYourOrder
    else if !(order.status == OrderStatus.OPEN ||
              order.status == OrderStatus.PARTIALLY_FILLED) then
      Except.error ApiError.orderNotCancellable
    else
      match findAgent st.agents agent_id with
      | none => Except.error ApiError.agentNotFound
      | some agent =>
        if agent.trading_mode == TradingMode.MANUAL then
          Except.ok ({ st with pending_actions := st.pending_actions + 1 },
                     CancelOutcome.pending)
        else
          let unfilled := order.size - order.filled
          let ar := unlock_balance_for_cancelled_order agent order.price unfilled
          let st' := { st with
            agents := updateAgentById st.agents agent_id (fun _ => ar.1),
            orders := st.orders.map (fun o =>
              if o.id == order_id then { o with status := OrderStatus.CANCELLED }
              else o) }
          Except.ok (st', CancelOutcome.cancelled ar.2)

/-- The cancel-and-refund loop at the top of `resolve_market` (settlement.py
lines 54-73): every open or partially filled order of the market is cancelled
and `price * unfilled` is unlocked for its owner (`scalar_one` raises when the
owner row is missing, modelled as an error). -/
def cancelOpenOrdersLoop (mid : ℕ) :
    List Order → List Agent → Except ApiError (List Order × List Agent)
  | [], ags => Except.ok ([], ags)
  | o :: os, ags =>
    if o.market_id == mid &&
       (o.status == OrderStatus.OPEN || o.status == OrderStatus.PARTIALLY_FILLED) then
      let unfilled := o.size - o.filled
      if 0 < unfilled then
        match findAgent ags o.agent_id with
        | none => Except.error ApiError.missingAgentRow
        | some _ =>
          let refund := o.price * (unfilled : ℚ)
          let ags' := updateAgentById ags o.agent_id
            (fun a => { a with locked_balance := a.locked_balance - refund })
          match cancelOpenOrdersLoop mid os ags' with
          | Except.ok (os', ags'') =>
            Except.ok ({ o with status := OrderStatus.CANCELLED } :: os', ags'')
          | Except.error e => Except.error e
      else
        match cancelOpenOrdersLoop mid os ags with
        | Except.ok (os', ags') =>
          Except.ok ({ o with status := OrderStatus.CANCELLED } :: os', ags')
        | Except.error e => Except.error e
    else
      match cancelOpenOrdersLoop mid os ags with
      | Except.ok (os', ags') => Except.ok (o :: os', ags')
      | Except.error e => Except.error e

/-- Accumulator of the payout loop of `resolve_market`. -/
structure PayoutResult where
  agents : List Agent
  fees : List PlatformFee
  total_payout : ℚ
  total_fees : ℚ
  winners : ℕ
deriving DecidableEq, Repr

/-- The payout loop of `resolve_market` (settlement.py lines 86-136): for every
position of the market with a positive gross payout on the winning side,
charge the settlement fee on profit (`avg_price` used with Python
truthiness), credit the net payout, record the fee when positive, and add the
gross per-share edge to the winner's reputation. -/
def payoutLoop (outcome : Outcome) (mid : ℕ) :
    List Position → PayoutResult → Except ApiError PayoutResult
  | [], acc => Except.ok acc
  | p :: ps, acc =>
    let gross : ℚ := if outcome == Outcome.YES then (p.yes_shares : ℚ) * 1
                     else (p.no_shares : ℚ) * 1
    let avg : Option ℚ := if outcome == Outcome.YES then p.avg_yes_price
                          else p.avg_no_price
    let shares : ℤ := if outcome == Outcome.YES then p.yes_shares else p.no_shares
    if 0 < gross then
      let settlement_fee : ℚ :=
        if decimalTruthy avg then
          let cost_basis := avg.getD 0 * (shares : ℚ)
          let profit := gross - cost_basis
          max 0 (profit * SETTLEMENT_FEE_RATE)
        else 0
      let net_payout := gross - settlement_fee
      match findAgent acc.agents p.agent_id with
      | none => Except.error ApiError.missingAgentRow
      | some _ =>
        let rep_delta : ℚ :=
          if outcome == Outcome.YES && decimalTruthy p.avg_yes_price then
            (1 - p.avg_yes_price.getD 0) * (p.yes_shares : ℚ)
          else if outcome == Outcome.NO && decimalTruthy p.avg_no_price then
            (1 - p.avg_no_price.getD 0) * (p.no_shares : ℚ)
          else 0
        let agents' := updateAgentById acc.agents p.agent_id
          (fun a => { a with balance := a.balance + net_payout,
                             reputation := a.reputation + rep_delta })
        let fees' :=
          if 0 < settlement_fee then
            acc.fees ++ [{ fee_type := FeeType.SETTLEMENT, amount := settlement_fee,
                           agent_id := some p.agent_id, market_id := some mid }]
          else acc.fees
        payoutLoop outcome mid ps
          { agents := agents', fees := fees',
            total_payout := acc.total_payout + net_payout,
            total_fees := acc.total_fees + settlement_fee,
            winners := acc.winners + 1 }
    else
      payoutLoop outcome mid ps acc

/-- The second pass over the market's positions in `resolve_market`
(settlement.py lines 142-155): sum of positive winner profits, measured
against the stored average cost price. -/
def totalWinnerProfits (outcome : Outcome) : List Position → ℚ
  | [] => 0
  | p :: ps =>
    let rest := totalWinnerProfits outcome ps
    if outcome == Outcome.YES && decide (0 < p.yes_shares) then
      if decimalTruthy p.avg_yes_price then
        let cost_basis := p.avg_yes_price.getD 0 * (p.yes_shares : ℚ)
        let profit := 1 * (p.yes_shares : ℚ) - cost_basis
        if 0 < profit then profit + rest else rest
      else rest
    else if outcome == Outcome.NO && decide (0 < p.no_shares) then
      if decimalTruthy p.avg_no_price then
        let cost_basis := p.avg_no_price.getD 0 * (p.no_shares : ℚ)
        let profit := 1 * (p.no_shares : ℚ) - cost_basis
        if 0 < profit then profit + rest else rest
      else rest
    else rest

/-- Resolution summary returned by `resolve_market`. -/
structure ResolutionSummary where
  winners : ℕ
  total_payout : ℚ
  total_fees : ℚ
  platform_share : ℚ
  winner_fee : ℚ
  moderator_total : ℚ
deriving DecidableEq, Repr

/-- `resolve_market` (settlement.py): validate, mark resolved, cancel and
refund open orders, pay out winners net of the settlement fee, compute the
moderator reward (platform share of settlement fees plus a winner-profit
fee), credit the moderator if that agent exists (silently skipping
otherwise), and record net platform statistics. -/
def resolve_market (st : SysState) (market_id : ℕ) (outcome : Outcome)
    (moderator_id : ℕ) : Except ApiError (SysState × ResolutionSummary) :=
  match findMarket st.markets market_id with
  | none => Except.error ApiError.marketNotFound
  | some market =>
    if market.status == MarketStatus.RESOLVED then
      Except.error ApiError.marketAlreadyResolved
    else
      let markets1 := st.markets.map (fun mk =>
        if mk.id == market_id then
          { mk with status := MarketStatus.RESOLVED, outcome := some outcome,
                    resolved_by := some moderator_id }
        else mk)
      match cancelOpenOrdersLoop market_id st.orders st.agents with
      | Except.error e => Except.error e
      | Except.ok (orders', agents1) =>
        let mpos := st.positions.filter (fun p => p.market_id == market_id)
        match payoutLoop outcome market_id mpos
          { agents := agents1, fees := st.platform_fees,
            total_payout := 0, total_fees := 0, winners := 0 } with
        | Except.error e => Except.error e
        | Except.ok pr =>
          let moderator_platform_share := pr.total_fees * MODERATOR_PLATFORM_SHARE
          let total_winner_profits := totalWinnerProfits outcome mpos
          let moderator_winner_fee := total_winner_profits * MODERATOR_WINNER_FEE
          let total_moderator_reward := moderator_platform_share + moderator_winner_fee
          let credited :=
            if 0 < total_moderator_reward then
              match findAgent pr.agents moderator_id with
              | some _ =>
                (updateAgentById pr.agents moderator_id
                  (fun a => { a with balance := a.balance + total_moderator_reward }),
                 st.moderator_rewards ++
                   [{ moderator_id := moderator_id, market_id := market_id,
                      platform_share := moderator_platform_share,
                      winner_fee := moderator_winner_fee,
                      total_reward := total_moderator_reward,
                      total_winner_profits := total_winner_profits }])
              | none => (pr.agents, st.moderator_rewards)
            else (pr.agents, st.moderator_rewards)
          let net_platform_fee := pr.total_fees - moderator_platform_share
          let stats' := update_platform_stats st.stats 0 0 net_platform_fee 0 0 0 1
          Except.ok
            ({ st with agents := credited.1, markets := markets1,
                       orders := orders', platform_fees := pr.fees,
                       moderator_rewards := credited.2, stats := stats' },
             { winners := pr.winners, total_payout := pr.total_payout,
               total_fees := pr.total_fees,
               platform_share := moderator_platform_share,
               winner_fee := moderator_winner_fee,
               moderator_total := total_moderator_reward })

/-- Sum of all agents' balances in a state. -/
def sumBalances (st : SysState) : ℚ :=
  (st.agents.map (fun a => a.balance)).sum

/-- Sum of all recorded platform-fee amounts in a state. -/
def sumFees (st : SysState) : ℚ :=
  (st.platform_fees.map (fun f => f.amount)).sum

/-! ## Fixtures and accessors used by the theorems -/

/-- Fresh all-zero platform statistics row. -/
def zeroStats : PlatformStats :=
  { total_trading_fees := 0, total_market_creation_fees := 0,
    total_settlement_fees := 0, total_volume := 0, total_trades := 0,
    total_markets_created := 0, total_markets_resolved := 0 }

/-- An open market with id 1 at the 50/50 initial prices. -/
def openMarket : Market :=
  { id := 1, creator_id := 1, status := MarketStatus.OPEN, outcome := none,
    yes_price := 1/2, no_price := 1/2, volume := 0, resolved_by := none }

/-- A trader in AUTO mode with the given id and balance. -/
def mkTrader (i : ℕ) (bal : ℚ) : Agent :=
  { id := i, role := AgentRole.TRADER, trading_mode := TradingMode.AUTO,
    balance := bal, locked_balance := 0, reputation := 0 }

/-- The order of a successful (AUTO-mode) placement, if any. -/
def placedOrder : Except ApiError (SysState × PlaceOutcome) → Option Order
  | Except.ok (_, PlaceOutcome.placed o _) => some o
  | _ => none

/-- The trades of a successful (AUTO-mode) placement, if any. -/
def placedTrades : Except ApiError (SysState × PlaceOutcome) → Option (List Trade)
  | Except.ok (_, PlaceOutcome.placed _ ts) => some ts
  | _ => none

/-- The state after a successful resolution, if any. -/
def resolvedState : Except ApiError (SysState × ResolutionSummary) → Option SysState
  | Except.ok (st, _) => some st
  | _ => none

/-- The summary of a successful resolution, if any. -/
def resolvedSummary : Except ApiError (SysState × ResolutionSummary) → Option ResolutionSummary
  | Except.ok (_, s) => some s
  | _ => none

/-- Buyer agent for the C2 scenario: a trader whose whole balance of 1000 is
locked against a BUY order of 2000 shares at price 0.50 (cost 1000). -/
def C2_buyer : Agent :=
  { id := 1, role := AgentRole.TRADER, trading_mode := TradingMode.AUTO,
    balance := 1000, locked_balance := 1000, reputation := 0 }

/-- Counterparty for the C2 scenario, with 1000 of 2000 locked for the
complementary side of the same trade. -/
def C2_seller : Agent :=
  { id := 2, role := AgentRole.TRADER, trading_mode := TradingMode.AUTO,
    balance := 2000, locked_balance := 1000, reputation := 0 }

/-- Trading fee on each side of a 2000-share trade at price 0.50, as
`match_order` computes it. -/
def C2_fee : ℚ := (1/2) * 2000 * TRADING_FEE_RATE

/-- Claim C2, failing input (code_bug): the lock-bound invariant
`0 ≤ locked_balance ≤ balance` holds for both parties before `settle_trade`,
yet after it the buyer's balance is -10 while the locked balance is 0 — the
fee is deducted from `balance` although `lock_balance_for_order` never locked
it (the docstring of `settle_trade` claims the fee is "already locked"). -/
theorem C2_settle_trade_breaks_lock_bound :
    (0 ≤ C2_buyer.locked_balance ∧ C2_buyer.locked_balance ≤ C2_buyer.balance) ∧
    (0 ≤ C2_seller.locked_balance ∧ C2_seller.locked_balance ≤ C2_seller.balance) ∧
    C2_fee = (1/2) * 2000 * TRADING_FEE_RATE ∧
    (settle_trade C2_buyer C2_seller (1/2) 2000 C2_fee C2_fee).1.locked_balance = 0 ∧
    (settle_trade C2_buyer C2_seller (1/2) 2000 C2_fee C2_fee).1.balance = -10 ∧
    ¬ ((settle_trade C2_buyer C2_seller (1/2) 2000 C2_fee C2_fee).1.locked_balance ≤
       (settle_trade C2_buyer C2_seller (1/2) 2000 C2_fee C2_fee).1.balance) := by
  decide

/-- Book for the C4 scenario: a resting BUY-YES bid at 0.60 by agent 2. -/
def C4_restingBid : Order :=
  { id := 10, agent_id := 2, market_id := 1, side := Side.YES,
    order_type := OrderType.BUY, price := 60/100, size := 10, filled := 0,
    status := OrderStatus.OPEN, created_at := 0 }

/-- System state for the C4 scenario. -/
def C4_state : SysState :=
  { agents := [mkTrader 1 1000, mkTrader 2 1000], markets := [openMarket],
    orders := [C4_restingBid], positions := [], platform_fees := [],
    moderator_rewards := [], stats := zeroStats, pending_actions := 0 }

/-- A request that explicitly asks for a SELL order. -/
def C4_request : OrderCreate :=
  { agent_id := 1, market_id := 1, side := Side.YES,
    order_type := OrderType.SELL, price := 55/100, size := 10 }

/-- The order the router would have created had it passed the request's
`order_type` through. -/
def C4_sellOrder : Order :=
  { id := 99, agent_id := 1, market_id := 1, side := Side.YES,
    order_type := OrderType.SELL, price := 55/100, size := 10, filled := 0,
    status := OrderStatus.OPEN, created_at := 5 }

/-- Claim C4, failing input (code_bug): a request with `order_type = SELL`
produces an order whose `order_type` is BUY (the model default — the router
omits the field when constructing the `Order`), and the order rests unmatched,
whereas the same order with `order_type = SELL` would have matched the resting
0.60 bid as a same-side SELL. -/
theorem C4_sell_request_creates_buy_order :
    C4_request.order_type = OrderType.SELL ∧
    (placedOrder (place_order C4_state C4_request 99 5)).map Order.order_type =
      some OrderType.BUY ∧
    (placedOrder (place_order C4_state C4_request 99 5)).map Order.status =
      some OrderStatus.OPEN ∧
    placedTrades (place_order C4_state C4_request 99 5) = some [] ∧
    ((match_order C4_state C4_sellOrder).2.2.map (fun t => (t.price, t.size))) =
      [(55/100, 10)] := by
  decide

/-- Winning position for the C10 scenario: agent 1 holds 10 YES shares bought
at an average price of 0.60. -/
def C10_position : Position :=
  { agent_id := 1, market_id := 1, yes_shares := 10, no_shares := 0,
    avg_yes_price := some (60/100), avg_no_price := none }

/-- System state for the C10 scenario; no agent has id 999. -/
def C10_state : SysState :=
  { agents := [mkTrader 1 100, mkTrader 2 1000], markets := [openMarket],
    orders := [], positions := [C10_position], platform_fees := [],
    moderator_rewards := [], stats := zeroStats, pending_actions := 0 }

/-- Claim C10 (confirmed): resolving with a moderator id that matches no agent
still succeeds — the market is marked resolved, the winner is paid the net
payout (100 + 9.92), the computed moderator reward 0.044 is positive yet no
balance receives it and no ModeratorReward record is created. -/
theorem C10_missing_moderator_resolution_completes :
    findAgent C10_state.agents 999 = none ∧
    (resolvedState (resolve_market C10_state 1 Outcome.YES 999)).map
      (fun st' => (st'.markets.map Market.status, st'.moderator_rewards,
                   st'.agents.map Agent.balance)) =
      some ([MarketStatus.RESOLVED], [], [100 + 992/100, 1000]) ∧
    (resolvedSummary (resolve_market C10_state 1 Outcome.YES 999)).map
      (fun s => (s.moderator_total, s.winners)) = some (44/1000, 1) ∧
    (0 : ℚ) < 44/1000 := by
  decide

/-- Rearrangement used to compare the code's `1.00 - order.price <= o.price`
filter with the spec's `incoming.price + resting.price >= 1.00` phrasing. -/
lemma one_sub_le_iff_add (p q : ℚ) : 1 - p ≤ q ↔ 1 ≤ p + q := by
  constructor <;> intro h <;> linarith

/-- Incoming BUY-YES order at 0.60 for the C6 threshold examples. -/
def C6_buyYes60 : Order :=
  { id := 1, agent_id := 1, market_id := 1, side := Side.YES,
    order_type := OrderType.BUY, price := 60/100, size := 10, filled := 0,
    status := OrderStatus.OPEN, created_at := 0 }

/-- Resting BUY-NO order at 0.40 (sums to exactly 1.00 with the 0.60 YES). -/
def C6_buyNo40 : Order :=
  { id := 2, agent_id := 2, market_id := 1, side := Side.NO,
    order_type := OrderType.BUY, price := 40/100, size := 10, filled := 0,
    status := OrderStatus.OPEN, created_at := 0 }

/-- Resting BUY-NO order at 0.35 (sums to 0.95 with the 0.60 YES). -/
def C6_buyNo35 : Order :=
  { id := 3, agent_id := 2, market_id := 1, side := Side.NO,
    order_type := OrderType.BUY, price := 35/100, size := 10, filled := 0,
    status := OrderStatus.OPEN, created_at := 0 }

/-- Claim C6 (confirmed): a resting order passes the complementary filter iff it
is in the same market on the opposite side with the same order type, open or
partially filled, belongs to a different agent, and the two prices sum to at
least 1.00; a resting order is scanned by the complementary strategy iff it is
in the book, passes that filter, and the incoming order is still unfilled.
Concretely BUY-YES@0.60 matches BUY-NO@0.40 but not BUY-NO@0.35. -/
theorem C6_complementary_eligibility :
    (∀ order o : Order, complEligible order o = true ↔
      (o.market_id = order.market_id ∧ o.side = opposite_side order.side ∧
       o.order_type = order.order_type ∧
       (o.status = OrderStatus.OPEN ∨ o.status = OrderStatus.PARTIALLY_FILLED) ∧
       1 ≤ order.price + o.price ∧ o.agent_id ≠ order.agent_id)) ∧
    (∀ (order o : Order) (book : List Order),
      o ∈ complCandidates order book ↔
        (order.filled < order.size ∧ o ∈ book ∧ complEligible order o = true)) ∧
    complEligible C6_buyYes60 C6_buyNo40 = true ∧
    complEligible C6_buyYes60 C6_buyNo35 = false ∧
    (1 ≤ (60:ℚ)/100 + 40/100) ∧ ¬ (1 ≤ (60:ℚ)/100 + 35/100) := by
  refine ⟨?_, ?_, by decide, by decide, by decide, by decide⟩
  · intro order o
    simp only [complEligible, Bool.and_eq_true, beq_iff_eq, Bool.or_eq_true,
      decide_eq_true_eq, bne_iff_ne, one_sub_le_iff_add]
    tauto
  · intro order o book
    unfold complCandidates
    by_cases hf : order.filled < order.size
    · rw [if_pos hf, List.mem_insertionSort, List.mem_filter]
      simp [hf]
    · rw [if_neg hf]
      simp [hf]

/-- Witness: the C6 eligibility characterisation applied to the concrete
0.60/0.40 pair. -/
theorem C6_complementary_eligibility_witness :
    C6_buyNo40.market_id = C6_buyYes60.market_id ∧
    C6_buyNo40.side = opposite_side C6_buyYes60.side ∧
    C6_buyNo40.order_type = C6_buyYes60.order_type ∧
    (C6_buyNo40.status = OrderStatus.OPEN ∨
     C6_buyNo40.status = OrderStatus.PARTIALLY_FILLED) ∧
    1 ≤ C6_buyYes60.price + C6_buyNo40.price ∧
    C6_buyNo40.agent_id ≠ C6_buyYes60.agent_id :=
  (C6_complementary_eligibility.1 C6_buyYes60 C6_buyNo40).mp (by decide)

/-- Share count of a position on the given side. -/
def sideShares (p : Position) : Side → ℤ
  | Side.YES => p.yes_shares
  | Side.NO => p.no_shares

/-- Average cost price of a position on the given side. -/
def sideAvg (p : Position) : Side → Option ℚ
  | Side.YES => p.avg_yes_price
  | Side.NO => p.avg_no_price

/-- A position of 20 YES shares at average price 0.55 (the C7 example). -/
def C7_pos : Position :=
  { agent_id := 1, market_id := 1, yes_shares := 20, no_shares := 0,
    avg_yes_price := some (55/100), avg_no_price := none }

/-- Claim C7 (confirmed): a buy fill with positive delta sets the average to
the fill price when there are no prior shares and to the weighted mean
otherwise, incrementing the count; a sell fill only moves the share count and
leaves both averages (and the other side) untouched — in particular selling 5
of 20 YES shares held at 0.55 leaves `avg_yes_price = 0.55`, `yes_shares = 15`. -/
theorem C7_position_update :
    (∀ (p : Position) (side : Side) (d : ℤ) (price : ℚ),
      0 < d → sideShares p side = 0 →
        sideShares (update_position p side d price true) side = d ∧
        sideAvg (update_position p side d price true) side = some price) ∧
    (∀ (p : Position) (side : Side) (d : ℤ) (price a : ℚ),
      0 < d → 0 < sideShares p side → sideAvg p side = some a → a ≠ 0 →
        sideShares (update_position p side d price true) side = sideShares p side + d ∧
        sideAvg (update_position p side d price true) side =
          some ((a * (sideShares p side : ℚ) + price * (d : ℚ)) /
                ((sideShares p side : ℚ) + (d : ℚ)))) ∧
    (∀ (p : Position) (side : Side) (d : ℤ) (price : ℚ),
      sideShares (update_position p side d price false) side = sideShares p side + d ∧
      sideAvg (update_position p side d price false) side = sideAvg p side ∧
      sideShares (update_position p side d price false) (opposite_side side) =
        sideShares p (opposite_side side) ∧
      sideAvg (update_position p side d price false) (opposite_side side) =
        sideAvg p (opposite_side side)) ∧
    update_position C7_pos Side.YES (-5) (55/100) false =
      { agent_id := 1, market_id := 1, yes_shares := 15, no_shares := 0,
        avg_yes_price := some (55/100), avg_no_price := none } := by
  refine ⟨?_, ?_, ?_, by decide⟩
  · intro p side d price hd hsh
    cases side <;>
      simp_all [update_position, sideShares, sideAvg, decimalTruthy]
  · intro p side d price a hd hsh ha hane
    cases side <;>
      simp_all [update_position, sideShares, sideAvg, decimalTruthy]
  · intro p side d price
    cases side <;>
      simp [update_position, sideShares, sideAvg, opposite_side]

/-- Witness: the C7 weighted-mean branch applied to 20 YES shares at 0.55
buying 10 more at 0.60, giving the average (0.55*20 + 0.60*10)/30 = 17/30. -/
theorem C7_position_update_witness :
    sideShares (update_position C7_pos Side.YES 10 (60/100) true) Side.YES = 30 ∧
    sideAvg (update_position C7_pos Side.YES 10 (60/100) true) Side.YES =
      some (((55:ℚ)/100 * ((20:ℤ) : ℚ) + 60/100 * ((10:ℤ) : ℚ)) /
            (((20:ℤ) : ℚ) + ((10:ℤ) : ℚ))) := by
  have h := C7_position_update.2.1 C7_pos Side.YES 10 (60/100) (55/100)
    (by decide) (by decide) (by decide) (by norm_num)
  simpa [C7_pos, sideShares, sideAvg] using h

/-- Minimal state for the cancellation claims: one agent owning one order. -/
def C9_state (ag : Agent) (o : Order) : SysState :=
  { agents := [ag], markets := [], orders := [o], positions := [],
    platform_fees := [], moderator_rewards := [], stats := zeroStats,
    pending_actions := 0 }

/-- Claim C9 (confirmed): an AUTO-mode cancellation refunds exactly
`price * (size - filled)` by decrementing the owner's locked balance and marks
the order cancelled; an unknown order id, a non-owner caller, or a terminal
(filled/cancelled) status raise without touching any state, so cancelling the
same order twice refunds only once. -/
theorem C9_cancel_order_semantics :
    (∀ (ag : Agent) (o : Order), o.agent_id = ag.id →
      ag.trading_mode = TradingMode.AUTO →
      (o.status = OrderStatus.OPEN ∨ o.status = OrderStatus.PARTIALLY_FILLED) →
      cancel_order (C9_state ag o) o.id ag.id =
        Except.ok
          ({ C9_state ag o with
              agents := [{ ag with locked_balance :=
                ag.locked_balance - o.price * ((o.size - o.filled : ℕ) : ℚ) }],
              orders := [{ o with status := OrderStatus.CANCELLED }] },
           CancelOutcome.cancelled (o.price * ((o.size - o.filled : ℕ) : ℚ)))) ∧
    (∀ (ag : Agent) (o : Order), o.agent_id = ag.id →
      (o.status = OrderStatus.FILLED ∨ o.status = OrderStatus.CANCELLED) →
      cancel_order (C9_state ag o) o.id ag.id =
        Except.error ApiError.orderNotCancellable) ∧
    (∀ (ag : Agent) (o : Order), o.agent_id = ag.id →
      ag.trading_mode = TradingMode.AUTO →
      (o.status = OrderStatus.OPEN ∨ o.status = OrderStatus.PARTIALLY_FILLED) →
      ∀ st₂ r, cancel_order (C9_state ag o) o.id ag.id = Except.ok (st₂, r) →
        cancel_order st₂ o.id ag.id = Except.error ApiError.orderNotCancellable) ∧
    (∀ (ag : Agent) (o : Order) (oid : ℕ), oid ≠ o.id →
      cancel_order (C9_state ag o) oid ag.id = Except.error ApiError.orderNotFound) ∧
    (∀ (ag : Agent) (o : Order) (aid : ℕ), aid ≠ o.agent_id →
      cancel_order (C9_state ag o) o.id aid = Except.error ApiError.notYourOrder) := by
  have hsucc : ∀ (ag : Agent) (o : Order), o.agent_id = ag.id →
      ag.trading_mode = TradingMode.AUTO →
      (o.status = OrderStatus.OPEN ∨ o.status = OrderStatus.PARTIALLY_FILLED) →
      cancel_order (C9_state ag o) o.id ag.id =
        Except.ok
          ({ C9_state ag o with
              agents := [{ ag with locked_balance :=
                ag.locked_balance - o.price * ((o.size - o.filled : ℕ) : ℚ) }],
              orders := [{ o with status := OrderStatus.CANCELLED }] },
           CancelOutcome.cancelled (o.price * ((o.size - o.filled : ℕ) : ℚ))) := by
    intro ag o hown hmode hst
    rcases hst with hst | hst <;>
      simp [cancel_order, C9_state, findOrder, findAgent, List.find?, hown, hmode,
        hst, unlock_balance_for_cancelled_order, updateAgentById]
  refine ⟨hsucc, ?_, ?_, ?_, ?_⟩
  · intro ag o hown hst
    rcases hst with hst | hst <;>
      simp [cancel_order, C9_state, findOrder, List.find?, hown, hst]
  · intro ag o hown hmode hst st₂ r hok
    rw [hsucc ag o hown hmode hst] at hok
    injection hok with h
    injection h with h1 h2
    subst h1
    simp [cancel_order, C9_state, findOrder, List.find?, hown]
  · intro ag o oid hne
    have hbeq : (o.id == oid) = false := by
      simpa using Ne.symm hne
    simp [cancel_order, C9_state, findOrder, List.find?, hbeq]
  · intro ag o aid hne
    simp [cancel_order, C9_state, findOrder, List.find?, Ne.symm hne]

/-- A half-filled 10-share order at 0.60 owned by agent 1, for the C9 witness. -/
def C9_order : Order :=
  { id := 7, agent_id := 1, market_id := 1, side := Side.YES,
    order_type := OrderType.BUY, price := 60/100, size := 10, filled := 5,
    status := OrderStatus.PARTIALLY_FILLED, created_at := 0 }

/-- Witness: cancelling the half-filled 10-share order at 0.60 refunds exactly
0.60 * (10 - 5) by decrementing the owner's locked balance. -/
theorem C9_cancel_order_semantics_witness :
    cancel_order (C9_state (mkTrader 1 1000) C9_order) C9_order.id 1 =
      Except.ok
        ({ C9_state (mkTrader 1 1000) C9_order with
            agents := [{ mkTrader 1 1000 with locked_balance :=
              (mkTrader 1 1000).locked_balance -
                C9_order.price * ((C9_order.size - C9_order.filled : ℕ) : ℚ) }],
            orders := [{ C9_order with status := OrderStatus.CANCELLED }] },
         CancelOutcome.cancelled
           (C9_order.price * ((C9_order.size - C9_order.filled : ℕ) : ℚ))) :=
  C9_cancel_order_semantics.1 (mkTrader 1 1000) C9_order rfl rfl (Or.inr rfl)

/-- Winner position parametrised by share count and stored average price. -/
def C8_position (shares : ℤ) (avg : Option ℚ) : Position :=
  { agent_id := 1, market_id := 1, yes_shares := shares, no_shares := 0,
    avg_yes_price := avg, avg_no_price := none }

/-- Moderator agent (id 2) with the given balance. -/
def mkModerator (bal : ℚ) : Agent :=
  { id := 2, role := AgentRole.MODERATOR, trading_mode := TradingMode.AUTO,
    balance := bal, locked_balance := 0, reputation := 0 }

/-- Resolution state for a single winner (agent 1) and a moderator (agent 2). -/
def C8_state (wBal mBal : ℚ) (shares : ℤ) (avg : Option ℚ) : SysState :=
  { agents := [mkTrader 1 wBal, mkModerator mBal],
    markets := [openMarket], orders := [], positions := [C8_position shares avg],
    platform_fees := [], moderator_rewards := [], stats := zeroStats,
    pending_actions := 0 }

/-- Claim C8 (confirmed): at resolution a winning position of `shares` shares
receives `gross = shares * 1.00` and is charged
`max 0 ((gross - avg*shares) * SETTLEMENT_FEE_RATE)`; the balance is credited
exactly `gross - fee`, and when the stored average price is null the fee is 0
while the payout is still the full gross. -/
theorem C8_settlement_fee_only_on_profit :
    (∀ (wBal mBal : ℚ) (shares : ℤ) (a : ℚ), 0 < shares → 0 < a →
      ∃ st' summary,
        resolve_market (C8_state wBal mBal shares (some a)) 1 Outcome.YES 2 =
          Except.ok (st', summary) ∧
        (findAgent st'.agents 1).map Agent.balance =
          some (wBal + ((shares : ℚ) * 1 -
            max 0 (((shares : ℚ) * 1 - a * (shares : ℚ)) * SETTLEMENT_FEE_RATE))) ∧
        summary.total_fees =
          max 0 (((shares : ℚ) * 1 - a * (shares : ℚ)) * SETTLEMENT_FEE_RATE) ∧
        summary.total_payout =
          (shares : ℚ) * 1 -
            max 0 (((shares : ℚ) * 1 - a * (shares : ℚ)) * SETTLEMENT_FEE_RATE)) ∧
    (∀ (wBal mBal : ℚ) (shares : ℤ), 0 < shares →
      ∃ st' summary,
        resolve_market (C8_state wBal mBal shares none) 1 Outcome.YES 2 =
          Except.ok (st', summary) ∧
        (findAgent st'.agents 1).map Agent.balance = some (wBal + (shares : ℚ) * 1) ∧
        summary.total_fees = 0) := by
  constructor
  · intro wBal mBal shares a hs ha
    have hsQ : (0:ℚ) < (shares:ℚ) * 1 := by
      rw [mul_one]
      exact_mod_cast hs
    have haneb : (a == 0) = false := beq_eq_false_iff_ne.mpr (ne_of_gt ha)
    have hdec : decide (0 < shares) = true := decide_eq_true hs
    simp [resolve_market, C8_state, C8_position, openMarket, mkTrader,
      mkModerator, findMarket, findAgent, List.find?, cancelOpenOrdersLoop,
      payoutLoop, totalWinnerProfits, List.filter, decimalTruthy,
      updateAgentById, zeroStats, update_platform_stats, hs, hsQ, haneb, hdec]
    refine ⟨_, _, ⟨rfl, rfl⟩, ?_, ?_, ?_⟩ <;>
      split_ifs <;>
        simp [findAgent, List.find?, updateAgentById]
  · intro wBal mBal shares hs
    have hsQ : (0:ℚ) < (shares:ℚ) * 1 := by
      rw [mul_one]
      exact_mod_cast hs
    simp [resolve_market, C8_state, C8_position, openMarket, mkTrader,
      mkModerator, findMarket, findAgent, List.find?, cancelOpenOrdersLoop,
      payoutLoop, totalWinnerProfits, List.filter, decimalTruthy,
      updateAgentById, zeroStats, update_platform_stats, hs, hsQ]
    refine ⟨_, _, ⟨rfl, rfl⟩, ?_, ?_⟩ <;>
      simp [findAgent, List.find?, updateAgentById]

/-- Witness: the 0.70-average example — a winner with 10 shares bought at 0.70
is paid 10 minus a fee of max 0 ((10 - 7) * 2%) = 0.06, i.e. only on the 0.30
per-share profit. -/
theorem C8_settlement_fee_only_on_profit_witness :
    ∃ st' summary,
      resolve_market (C8_state 100 50 10 (some (70/100))) 1 Outcome.YES 2 =
        Except.ok (st', summary) ∧
      (findAgent st'.agents 1).map Agent.balance =
        some (100 + (((10 : ℤ) : ℚ) * 1 -
          max 0 ((((10 : ℤ) : ℚ) * 1 - 70/100 * ((10 : ℤ) : ℚ)) *
            SETTLEMENT_FEE_RATE))) ∧
      summary.total_fees =
        max 0 ((((10 : ℤ) : ℚ) * 1 - 70/100 * ((10 : ℤ) : ℚ)) *
          SETTLEMENT_FEE_RATE) ∧
      summary.total_payout =
        ((10 : ℤ) : ℚ) * 1 -
          max 0 ((((10 : ℤ) : ℚ) * 1 - 70/100 * ((10 : ℤ) : ℚ)) *
            SETTLEMENT_FEE_RATE) :=
  C8_settlement_fee_only_on_profit.1 100 50 10 (70/100) (by decide) (by decide)

/-- Concrete resolution state for the C3 counterexample: winner with 10 shares
at average price 0.60, moderator with balance 50. -/
def C3_state : SysState := C8_state 100 50 10 (some (60/100))

/-- Claim C3, counterexample: resolving C3_state changes
`sum(balances) + sum(recorded fees)` from 150 to 160.044 — the gross payout
re-mints the trade escrow and the moderator reward 0.044 is credited although
no agent is debited during the operation (both agents' balances only grow),
so the sum is not preserved modulo fee movements and the moderator's
winner-fee portion was never collected from anyone. -/
theorem C3_conservation_counterexample :
    sumBalances C3_state + sumFees C3_state = 150 ∧
    (resolvedState (resolve_market C3_state 1 Outcome.YES 2)).map
      (fun st' => sumBalances st' + sumFees st') = some (160044/1000) ∧
    ((160044 : ℚ)/1000 ≠ 150) ∧
    (resolvedState (resolve_market C3_state 1 Outcome.YES 2)).map
      (fun st' => st'.agents.map Agent.balance) =
      some [100 + 992/100, 50 + 44/1000] := by
  decide

/-- Claim C3 as amended: (1) a trade settlement moves
`buyer_cost + seller_cost + fees = size + fees` out of the two balances; (2)
the trading fees reappear, exactly, as recorded fee amounts; (3) a resolution
increases `sum(balances) + sum(recorded fees)` by the gross payout plus the
moderator platform share plus the moderator winner fee — the winner is
credited `gross - settlement_fee` (the fee being the only amount withheld
from any agent) while the moderator receives `platform_share + winner_fee`,
with the positive winner fee never collected from any agent. -/
theorem C3_amended_accounting :
    (∀ (buyer seller : Agent) (price : ℚ) (size : ℕ) (bfee sfee : ℚ),
      (settle_trade buyer seller price size bfee sfee).1.balance +
        (settle_trade buyer seller price size bfee sfee).2.balance =
      buyer.balance + seller.balance - ((size : ℚ) + bfee + sfee)) ∧
    (∀ (fees : List PlatformFee) (b s : ℕ) (bfee sfee : ℚ) (m : ℕ),
      0 < bfee → 0 < sfee →
      ((record_trading_fee fees b s bfee sfee m).map PlatformFee.amount).sum =
        (fees.map PlatformFee.amount).sum + bfee + sfee) ∧
    (∀ (wBal mBal : ℚ) (shares : ℤ) (a : ℚ), 0 < shares → 0 < a → a < 1 →
      ∃ st' summary,
        resolve_market (C8_state wBal mBal shares (some a)) 1 Outcome.YES 2 =
          Except.ok (st', summary) ∧
        sumBalances st' + sumFees st' =
          (sumBalances (C8_state wBal mBal shares (some a)) +
           sumFees (C8_state wBal mBal shares (some a))) +
          (shares : ℚ) * 1 + summary.platform_share + summary.winner_fee ∧
        summary.winner_fee = ((shares : ℚ) * 1 - a * (shares : ℚ)) * MODERATOR_WINNER_FEE ∧
        0 < summary.winner_fee ∧
        (findAgent st'.agents 2).map Agent.balance =
          some (mBal + (summary.platform_share + summary.winner_fee)) ∧
        (findAgent st'.agents 1).map Agent.balance =
          some (wBal + ((shares : ℚ) * 1 - summary.total_fees))) := by
  refine ⟨?_, ?_, ?_⟩
  · intro buyer seller price size bfee sfee
    simp [settle_trade]
    ring
  · intro fees b s bfee sfee m hb hs
    simp [record_trading_fee, hb, hs]
    ring
  · intro wBal mBal shares a hs ha ha1
    have hsQ : (0:ℚ) < (shares:ℚ) * 1 := by
      rw [mul_one]
      exact_mod_cast hs
    have haneb : (a == 0) = false := beq_eq_false_iff_ne.mpr (ne_of_gt ha)
    have hdec : decide (0 < shares) = true := decide_eq_true hs
    have h1 : (0:ℚ) < (shares:ℚ) := by exact_mod_cast hs
    have h2 : (0:ℚ) < (shares:ℚ) - a * (shares:ℚ) := by nlinarith
    have hfee : (0:ℚ) < ((shares:ℚ) - a * (shares:ℚ)) * SETTLEMENT_FEE_RATE :=
      mul_pos h2 (by unfold SETTLEMENT_FEE_RATE; norm_num)
    have hmax : (0:ℚ) ⊔ (((shares:ℚ) - a * (shares:ℚ)) * SETTLEMENT_FEE_RATE) =
        ((shares:ℚ) - a * (shares:ℚ)) * SETTLEMENT_FEE_RATE :=
      max_eq_right (le_of_lt hfee)
    have hwf : (0:ℚ) < ((shares:ℚ) - a * (shares:ℚ)) * MODERATOR_WINNER_FEE :=
      mul_pos h2 (by unfold MODERATOR_WINNER_FEE; norm_num)
    simp [resolve_market, C8_state, C8_position, openMarket, mkTrader,
      mkModerator, findMarket, findAgent, List.find?, cancelOpenOrdersLoop,
      payoutLoop, totalWinnerProfits, List.filter, decimalTruthy,
      updateAgentById, zeroStats, update_platform_stats, sumBalances, sumFees,
      hs, hsQ, haneb, hdec, ha1, hfee, hmax]
    split_ifs with hc
    · refine ⟨_, _, ⟨rfl, rfl⟩, ?_, ?_, ?_, ?_, ?_⟩ <;>
        simp [findAgent, List.find?, updateAgentById, hmax] <;>
          ring_nf <;>
            nlinarith [hwf]
    · exfalso
      apply hc
      have hps : (0:ℚ) < MODERATOR_PLATFORM_SHARE := by
        unfold MODERATOR_PLATFORM_SHARE; norm_num
      nlinarith [mul_pos hfee hps, hwf]

/-- Witness: the amended accounting evaluated on the counterexample state —
at wBal = 100, mBal = 50, 10 shares at average 0.60. -/
theorem C3_amended_accounting_witness :
    ∃ st' summary,
      resolve_market (C8_state 100 50 10 (some (60/100))) 1 Outcome.YES 2 =
        Except.ok (st', summary) ∧
      sumBalances st' + sumFees st' =
        (sumBalances (C8_state 100 50 10 (some (60/100))) +
         sumFees (C8_state 100 50 10 (some (60/100)))) +
        ((10 : ℤ) : ℚ) * 1 + summary.platform_share + summary.winner_fee ∧
      summary.winner_fee =
        (((10 : ℤ) : ℚ) * 1 - 60/100 * ((10 : ℤ) : ℚ)) * MODERATOR_WINNER_FEE ∧
      0 < summary.winner_fee ∧
      (findAgent st'.agents 2).map Agent.balance =
        some (50 + (summary.platform_share + summary.winner_fee)) ∧
      (findAgent st'.agents 1).map Agent.balance =
        some (100 + (((10 : ℤ) : ℚ) * 1 - summary.total_fees)) :=
  C3_amended_accounting.2.2 100 50 10 (60/100) (by decide) (by decide) (by decide)

/-- Resting BUY-YES order at 0.55, placed first (C5 price-time example). -/
def C5_resting055 : Order :=
  { id := 21, agent_id := 2, market_id := 1, side := Side.YES,
    order_type := OrderType.BUY, price := 55/100, size := 10, filled := 0,
    status := OrderStatus.OPEN, created_at := 0 }

/-- Resting BUY-YES order at 0.60, placed second (C5 price-time example). -/
def C5_resting060 : Order :=
  { id := 22, agent_id := 3, market_id := 1, side := Side.YES,
    order_type := OrderType.BUY, price := 60/100, size := 10, filled := 0,
    status := OrderStatus.OPEN, created_at := 1 }

/-- Incoming BUY-NO order at 0.40 for size 10 (C5 price-time example). -/
def C5_incoming : Order :=
  { id := 23, agent_id := 1, market_id := 1, side := Side.NO,
    order_type := OrderType.BUY, price := 40/100, size := 10, filled := 0,
    status := OrderStatus.OPEN, created_at := 2 }

/-- Book state with the two resting YES orders. -/
def C5_state : SysState :=
  { agents := [mkTrader 1 1000, mkTrader 2 1000, mkTrader 3 1000],
    markets := [openMarket], orders := [C5_resting055, C5_resting060],
    positions := [], platform_fees := [], moderator_rewards := [],
    stats := zeroStats, pending_actions := 0 }

/-- Claim C5 (confirmed): the candidate sequence is the same-side scan followed
by the complementary scan; each scan is sorted by the stated price key then
creation time, and contains exactly the book's eligible orders; and in the
concrete example the incoming NO at 0.40 fills against the later-placed 0.60
YES order at price 0.60 while the 0.55 order is left untouched. -/
theorem C5_match_priority_and_ordering :
    (∀ (order : Order) (book : List Order),
      matchCandidates order book =
        sameSideCandidates order book ++ complCandidates order book) ∧
    (∀ (order : Order) (book : List Order), order.order_type = OrderType.BUY →
      List.Sorted buyPriceTimeLe (sameSideCandidates order book)) ∧
    (∀ (order : Order) (book : List Order), order.order_type = OrderType.SELL →
      List.Sorted sellPriceTimeLe (sameSideCandidates order book)) ∧
    (∀ (order : Order) (book : List Order),
      List.Sorted sellPriceTimeLe (complCandidates order book)) ∧
    (∀ (order : Order) (book : List Order),
      (sameSideCandidates order book).Perm
        (book.filter (fun o => sameSideEligible order o))) ∧
    (∀ (order : Order) (book : List Order), order.filled < order.size →
      (complCandidates order book).Perm
        (book.filter (fun o => complEligible order o))) ∧
    ((match_order C5_state C5_incoming).2.2.map (fun t => (t.price, t.size)) =
      [(60/100, 10)]) ∧
    ((match_order C5_state C5_incoming).1.orders =
      [C5_resting055, { C5_resting060 with filled := 10, status := OrderStatus.FILLED }]) ∧
    C5_resting055.created_at < C5_resting060.created_at := by
  refine ⟨?_, ?_, ?_, ?_, ?_, ?_, by decide, by decide, by decide⟩
  · intro order book
    rfl
  · intro order book h
    unfold sameSideCandidates
    rw [if_pos (by simp [h])]
    exact List.sorted_insertionSort buyPriceTimeLe _
  · intro order book h
    unfold sameSideCandidates
    rw [if_neg (by simp [h])]
    exact List.sorted_insertionSort sellPriceTimeLe _
  · intro order book
    unfold complCandidates
    split
    · exact List.sorted_insertionSort sellPriceTimeLe _
    · exact List.sorted_nil
  · intro order book
    unfold sameSideCandidates
    split
    · exact List.perm_insertionSort _ _
    · exact List.perm_insertionSort _ _
  · intro order book h
    unfold complCandidates
    rw [if_pos h]
    exact List.perm_insertionSort _ _

/-- Witness: the sortedness and membership facts applied to the concrete
C5 book. -/
theorem C5_match_priority_and_ordering_witness :
    List.Sorted buyPriceTimeLe
      (sameSideCandidates C5_incoming [C5_resting055, C5_resting060]) ∧
    (complCandidates C5_incoming [C5_resting055, C5_resting060]).Perm
      ([C5_resting055, C5_resting060].filter
        (fun o => complEligible C5_incoming o)) :=
  ⟨C5_match_priority_and_ordering.2.1 C5_incoming [C5_resting055, C5_resting060] rfl,
   C5_match_priority_and_ordering.2.2.2.2.2.1 C5_incoming
     [C5_resting055, C5_resting060] (by decide)⟩

/-- Fields of the incoming order that the matching loop never mutates (it only
advances `filled` and `status`). -/
def OrderCore (a b : Order) : Prop :=
  a.id = b.id ∧ a.agent_id = b.agent_id ∧ a.side = b.side ∧
  a.order_type = b.order_type ∧ a.price = b.price

/-- The price rule the matching engine actually implements, stated for one
trade: the two orders of the trade are the incoming order or book orders, and
in a same-side pairing the trade price is the SELL-typed order's price, while
in a complementary pairing the buy side is the YES order and the trade price
is its price — in both cases regardless of which of the two was resting. -/
def TradePriced (incoming : Order) (book : List Order) (t : Trade) : Prop :=
  ∃ bo so : Order,
    (bo = incoming ∨ bo ∈ book) ∧ (so = incoming ∨ so ∈ book) ∧
    bo.id = t.buy_order_id ∧ so.id = t.sell_order_id ∧
    ((bo.side = so.side ∧ bo.order_type = OrderType.BUY ∧
      so.order_type = OrderType.SELL ∧ t.price = so.price) ∨
     (bo.side = Side.YES ∧ so.side = Side.NO ∧
      bo.order_type = so.order_type ∧ t.price = bo.price))

lemma sameSideEligible_side {order o : Order}
    (h : sameSideEligible order o = true) : o.side = order.side := by
  unfold sameSideEligible at h
  simp only [Bool.and_eq_true, beq_iff_eq] at h
  exact h.1.1.1.1.2

lemma sameSideEligible_type {order o : Order}
    (h : sameSideEligible order o = true) :
    o.order_type = opposite_type order.order_type := by
  unfold sameSideEligible at h
  simp only [Bool.and_eq_true, beq_iff_eq] at h
  exact h.1.1.1.2

lemma complEligible_side {order o : Order}
    (h : complEligible order o = true) : o.side = opposite_side order.side := by
  unfold complEligible at h
  simp only [Bool.and_eq_true, beq_iff_eq] at h
  exact h.1.1.1.1.2

lemma complEligible_type {order o : Order}
    (h : complEligible order o = true) : o.order_type = order.order_type := by
  unfold complEligible at h
  simp only [Bool.and_eq_true, beq_iff_eq] at h
  exact h.1.1.1.2

lemma opposite_side_ne (s : Side) : opposite_side s ≠ s := by
  cases s <;> simp [opposite_side]

lemma matchInfo_eq_same_buy {order m : Order} (h : order.side = m.side)
    (ht : order.order_type = OrderType.BUY) :
    matchInfo order m =
      { buyer_id := order.agent_id, seller_id := m.agent_id,
        buy_order_id := order.id, sell_order_id := m.id,
        trade_price := m.price } := by
  simp [matchInfo, h, ht]

lemma matchInfo_eq_same_sell {order m : Order} (h : order.side = m.side)
    (ht : order.order_type = OrderType.SELL) :
    matchInfo order m =
      { buyer_id := m.agent_id, seller_id := order.agent_id,
        buy_order_id := m.id, sell_order_id := order.id,
        trade_price := order.price } := by
  simp [matchInfo, h, ht]

lemma matchInfo_eq_compl_yes {order m : Order} (h : ¬ order.side = m.side)
    (hy : order.side = Side.YES) :
    matchInfo order m =
      { buyer_id := order.agent_id, seller_id := m.agent_id,
        buy_order_id := order.id, sell_order_id := m.id,
        trade_price := order.price } := by
  simp only [matchInfo, beq_eq_false_iff_ne.mpr h, Bool.false_eq_true, if_false]
  simp only [hy, beq_self_eq_true, if_true]

lemma matchInfo_eq_compl_no {order m : Order} (h : ¬ order.side = m.side)
    (hn : order.side = Side.NO) :
    matchInfo order m =
      { buyer_id := m.agent_id, seller_id := order.agent_id,
        buy_order_id := m.id, sell_order_id := order.id,
        trade_price := m.price } := by
  simp only [matchInfo, beq_eq_false_iff_ne.mpr h, Bool.false_eq_true, if_false]
  simp only [hn]
  rfl

lemma mem_sameSideCandidates {order : Order} {book : List Order} {m : Order}
    (h : m ∈ sameSideCandidates order book) :
    m ∈ book ∧ sameSideEligible order m = true := by
  unfold sameSideCandidates at h
  split at h <;>
    · rw [List.mem_insertionSort, List.mem_filter] at h
      exact h

lemma mem_complCandidates {order : Order} {book : List Order} {m : Order}
    (h : m ∈ complCandidates order book) :
    m ∈ book ∧ complEligible order m = true := by
  unfold complCandidates at h
  split at h
  · rw [List.mem_insertionSort, List.mem_filter] at h
    exact h
  · simp at h

/-- One matching step only appends a trade satisfying the implemented price
rule: in the same-side branch the SELL-typed order's price is used, in the
complementary branch the YES order's price is used. -/
lemma matchStep_trade_priced (incoming : Order) (book : List Order)
    (s : LoopState) (m : Order) (hcore : OrderCore s.order incoming)
    (hm : m ∈ book)
    (hel : sameSideEligible incoming m = true ∨ complEligible incoming m = true)
    (hprev : ∀ t ∈ s.trades, TradePriced incoming book t) :
    ∀ t ∈ (matchStep s m).trades, TradePriced incoming book t := by
  obtain ⟨hid, haid, hside, htype, hprice⟩ := hcore
  intro t ht
  simp only [matchStep, List.mem_append, List.mem_singleton] at ht
  rcases ht with h | h
  · exact hprev t h
  · subst h
    rcases hel with hss | hcc
    · have hmside : m.side = incoming.side := sameSideEligible_side hss
      have hmtype : m.order_type = opposite_type incoming.order_type :=
        sameSideEligible_type hss
      have hsom : s.order.side = m.side := by rw [hside, hmside]
      cases hty : incoming.order_type with
      | BUY =>
        have hbuy : s.order.order_type = OrderType.BUY := by rw [htype, hty]
        rw [matchInfo_eq_same_buy hsom hbuy]
        refine ⟨incoming, m, Or.inl rfl, Or.inr hm, hid.symm, rfl,
          Or.inl ⟨hmside.symm, hty, ?_, rfl⟩⟩
        rw [hmtype, hty]
        rfl
      | SELL =>
        have hsell : s.order.order_type = OrderType.SELL := by rw [htype, hty]
        rw [matchInfo_eq_same_sell hsom hsell]
        refine ⟨m, incoming, Or.inr hm, Or.inl rfl, rfl, hid.symm,
          Or.inl ⟨hmside, ?_, hty, hprice⟩⟩
        rw [hmtype, hty]
        rfl
    · have hmside : m.side = opposite_side incoming.side := complEligible_side hcc
      have hmtype : m.order_type = incoming.order_type := complEligible_type hcc
      have hsom : ¬ s.order.side = m.side := by
        rw [hside, hmside]
        exact fun hcontra => opposite_side_ne incoming.side hcontra.symm
      cases hsy : incoming.side with
      | YES =>
        have hy : s.order.side = Side.YES := by rw [hside, hsy]
        rw [matchInfo_eq_compl_yes hsom hy]
        refine ⟨incoming, m, Or.inl rfl, Or.inr hm, hid.symm, rfl,
          Or.inr ⟨hsy, ?_, hmtype.symm, hprice⟩⟩
        rw [hmside, hsy]
        rfl
      | NO =>
        have hn : s.order.side = Side.NO := by rw [hside, hsy]
        rw [matchInfo_eq_compl_no hsom hn]
        refine ⟨m, incoming, Or.inr hm, Or.inl rfl, rfl, hid.symm,
          Or.inr ⟨?_, hsy, hmtype, rfl⟩⟩
        rw [hmside, hsy]
        rfl

/-- Every trade created by the matching loop satisfies the implemented price
rule, provided all candidates are eligible book orders. -/
lemma matchLoop_trades_priced (incoming : Order) (book : List Order) :
    ∀ (cs : List Order) (s : LoopState),
      OrderCore s.order incoming →
      (∀ m ∈ cs, m ∈ book ∧
        (sameSideEligible incoming m = true ∨ complEligible incoming m = true)) →
      (∀ t ∈ s.trades, TradePriced incoming book t) →
      ∀ t ∈ (matchLoop s cs).trades, TradePriced incoming book t := by
  intro cs
  induction cs with
  | nil =>
    intro s hcore hcs hprev t ht
    exact hprev t ht
  | cons m ms ih =>
    intro s hcore hcs hprev t ht
    rw [matchLoop] at ht
    split at ht
    · exact hprev t ht
    · split at ht
      · exact ih s hcore (fun x hx => hcs x (List.mem_cons_of_mem _ hx)) hprev t ht
      · refine ih (matchStep s m) ?_
          (fun x hx => hcs x (List.mem_cons_of_mem _ hx)) ?_ t ht
        · exact hcore
        · exact matchStep_trade_priced incoming book s m hcore
            (hcs m (List.mem_cons_self _ _)).1
            (hcs m (List.mem_cons_self _ _)).2 hprev

/-- Resting (maker) BUY-NO order at 0.35 for the C1 counterexample. -/
def C1_restingNO : Order :=
  { id := 10, agent_id := 2, market_id := 1, side := Side.NO,
    order_type := OrderType.BUY, price := 35/100, size := 10, filled := 0,
    status := OrderStatus.OPEN, created_at := 0 }

/-- Book state with the single resting NO order. -/
def C1_state : SysState :=
  { agents := [mkTrader 1 1000, mkTrader 2 1000], markets := [openMarket],
    orders := [C1_restingNO], positions := [], platform_fees := [],
    moderator_rewards := [], stats := zeroStats, pending_actions := 0 }

/-- Incoming (taker) BUY-YES order at 0.70 for the C1 counterexample. -/
def C1_incoming : Order :=
  { id := 11, agent_id := 1, market_id := 1, side := Side.YES,
    order_type := OrderType.BUY, price := 70/100, size := 10, filled := 0,
    status := OrderStatus.OPEN, created_at := 1 }

/-- Claim C1, counterexample: an incoming BUY-YES at 0.70 crossing a resting
BUY-NO at 0.35 (sum 1.05 ≥ 1) executes at the incoming taker's price 0.70 —
not at the maker's price and not at its complement 0.65 — and the NO maker's
position cost is recorded as 1 - 0.70 = 0.30, not the maker's own 0.35. -/
theorem C1_maker_price_counterexample :
    ((match_order C1_state C1_incoming).2.2.map Trade.price = [70/100]) ∧
    C1_restingNO.price = 35/100 ∧ C1_incoming.price = 70/100 ∧
    ((70 : ℚ)/100 ≠ 1 - 35/100) ∧ ((70 : ℚ)/100 ≠ 35/100) ∧
    ((match_order C1_state C1_incoming).1.positions.map
      (fun p => (p.agent_id, p.avg_no_price))) =
      [(1, none), (2, some (30/100))] ∧
    ((30 : ℚ)/100 ≠ 35/100) := by
  decide

/-- Claim C1 as amended: every trade `match_order` creates is priced by the
SELL order in a same-side match and by the YES order in a complementary match
(`TradePriced`), whichever of the two was resting; in the concrete
complementary run the NO side's position cost is recorded at
`1.00 - trade_price` where the trade price is the YES order's 0.70. -/
theorem C1_trade_price_rule :
    (∀ (st : SysState) (incoming : Order),
      ∀ t ∈ (match_order st incoming).2.2, TradePriced incoming st.orders t) ∧
    ((match_order C1_state C1_incoming).1.positions.map
      (fun p => (p.agent_id, p.yes_shares, p.no_shares, p.avg_yes_price,
                 p.avg_no_price))) =
      [(1, 10, 0, some (70/100), none), (2, 0, 10, none, some (1 - 70/100))] := by
  constructor
  · intro st incoming t ht
    refine matchLoop_trades_priced incoming st.orders
      (matchCandidates incoming st.orders) _ ⟨rfl, rfl, rfl, rfl, rfl⟩ ?_ ?_ t ht
    · intro m hm
      rcases List.mem_append.mp hm with h | h
      · obtain ⟨hb, he⟩ := mem_sameSideCandidates h
        exact ⟨hb, Or.inl he⟩
      · obtain ⟨hb, he⟩ := mem_complCandidates h
        exact ⟨hb, Or.inr he⟩
    · intro t' ht'
      simp at ht'
  · decide

/-- Witness: the price rule applied to the one trade of the concrete C1 run —
a complementary match priced by the YES (incoming) order at 0.70. -/
theorem C1_trade_price_rule_witness :
    TradePriced C1_incoming C1_state.orders
      { market_id := 1, buy_order_id := 11, sell_order_id := 10, buyer_id := 1,
        seller_id := 2, side := Side.YES, price := 70/100, size := 10,
        buyer_fee := 7/100, seller_fee := 3/100, total_fee := 1/10 } :=
  C1_trade_price_rule.1 C1_state C1_incoming _ (by decide)
